import Mathlib

/-!
Verification development for the Attrition Prediction API (`src/main.py`).

The service exposes a pre-trained classifier over HTTP.  We shallowly embed
the request handlers of `main.py` as pure Lean functions:

* Python floats become `ℚ` (all constants of the decision logic are exact
  decimals);
* the opaque predictor artifact becomes a `Pipeline` record whose fallible
  methods return `Except String _` (a raised exception is `.error msg`);
* an HTTP error raised via `HTTPException` becomes `Except HError _`;
* the instrumented variant of the `/predict` handler additionally returns
  the list of predictor invocations it performed, so that "the predictor is
  never invoked" is expressible.
-/

/-- The input schema `EmployeeInput` of `main.py` (lines 34-78): 29 named
fields.  Python `int` fields become `Int`, `float` fields become `ℚ`,
`str` fields become `String`. -/
structure EmployeeInput where
  Age : Int
  Gender : String
  MaritalStatus : String
  Department : String
  JobRole : String
  JobLevel : Int
  JobSatisfaction : Int
  MonthlyIncome : ℚ
  DailyRate : ℚ
  HourlyRate : ℚ
  MonthlyRate : ℚ
  YearsAtCompany : Int
  YearsInCurrentRole : Int
  YearsSinceLastPromotion : Int
  TotalWorkingYears : Int
  YearsWithCurrManager : Int
  NumCompaniesWorked : Int
  PerformanceRating : Int
  PercentSalaryHike : ℚ
  TrainingTimesLastYear : Int
  OverTime : String
  BusinessTravel : String
  DistanceFromHome : Int
  WorkLifeBalance : Int
  EnvironmentSatisfaction : Int
  RelationshipSatisfaction : Int
  Education : Int
  EducationField : String
  StockOptionLevel : Int

/-- The response schema `PredictionResponse` of `main.py` (lines 80-83). -/
structure PredictionResponse where
  prediction : String
  probability : ℚ
  confidence : String
deriving DecidableEq

/-- The response schema `HealthResponse` of `main.py` (lines 85-88). -/
structure HealthResponse where
  status : String
  model_loaded : Bool
  message : String
deriving DecidableEq

/-- An `HTTPException` raised by a handler: status code and detail string. -/
structure HError where
  status_code : Nat
  detail : String
deriving DecidableEq

/-- The deserialized predictor artifact (the joblib pipeline), modelled as an
opaque record.  `predict` returns the scalar class taken from the first row of
the prediction array (`pipeline.predict(input_df)[0]`), `predict_proba` the
first row of the probability matrix (`pipeline.predict_proba(input_df)[0]`).
A raised exception (including `AttributeError` when the method is absent) is
`.error msg`.  `pipeline_type` and `has_predict_proba` model the introspection
performed by `/test-prediction`: `str(type(pipeline))` and the hasattr check
for predict_proba. -/
structure Pipeline where
  predict : EmployeeInput → Except String Int
  predict_proba : EmployeeInput → Except String (List ℚ)
  pipeline_type : String
  has_predict_proba : Bool

/-- `main.py` lines 96-110: the startup environment.  `fileExists` models
`os.path.exists(pipeline_path)`; `deserializeOk` models whether
`joblib.load(pipeline_path)` succeeds; `pipe` is the artifact obtained when it
does. -/
structure Env where
  fileExists : Bool
  deserializeOk : Bool
  pipe : Pipeline

/-- `load_model` of `main.py` lines 96-107: returns `True` when the file
exists and deserializes, `False` when the file is missing (the raised
`FileNotFoundError` is caught) or `joblib.load` raises. -/
def load_model (env : Env) : Bool :=
  env.fileExists && env.deserializeOk

/-- Process-wide state after startup: the `model_loaded` flag (line 110) and
the global `pipeline` variable, which is `none` unless `joblib.load`
succeeded (lines 94, 102). -/
structure ServerState where
  model_loaded : Bool
  pipeline : Option Pipeline

/-- Startup (`model_loaded = load_model()`, line 110): the global `pipeline`
is assigned only on a successful load. -/
def startup (env : Env) : ServerState :=
  if load_model env then
    { model_loaded := true, pipeline := some env.pipe }
  else
    { model_loaded := false, pipeline := none }

/-- `health_check` of `main.py` lines 115-122. -/
def health_check (s : ServerState) : HealthResponse :=
  { status := if s.model_loaded then "healthy" else "unhealthy"
    model_loaded := s.model_loaded
    message := if s.model_loaded then "Model loaded successfully"
               else "Model failed to load" }

/-- The `high_risk_employee` literal of `get_sample_data`
(`main.py` lines 131-161). -/
def high_risk_employee : EmployeeInput :=
  { Age := 25
    Gender := "Male"
    MaritalStatus := "Single"
    Department := "Sales"
    JobRole := "Sales Representative"
    JobLevel := 1
    JobSatisfaction := 2
    MonthlyIncome := 2000.0
    DailyRate := 100.0
    HourlyRate := 12.0
    MonthlyRate := 2000.0
    YearsAtCompany := 1
    YearsInCurrentRole := 1
    YearsSinceLastPromotion := 1
    TotalWorkingYears := 2
    YearsWithCurrManager := 1
    NumCompaniesWorked := 1
    PerformanceRating := 2
    PercentSalaryHike := 5.0
    TrainingTimesLastYear := 1
    OverTime := "Yes"
    BusinessTravel := "Travel_Frequently"
    DistanceFromHome := 20
    WorkLifeBalance := 2
    EnvironmentSatisfaction := 2
    RelationshipSatisfaction := 2
    Education := 2
    EducationField := "Life Sciences"
    StockOptionLevel := 0 }

/-- The `low_risk_employee` literal of `get_sample_data`
(`main.py` lines 162-192). -/
def low_risk_employee : EmployeeInput :=
  { Age := 45
    Gender := "Female"
    MaritalStatus := "Married"
    Department := "Research & Development"
    JobRole := "Research Scientist"
    JobLevel := 4
    JobSatisfaction := 4
    MonthlyIncome := 8000.0
    DailyRate := 400.0
    HourlyRate := 50.0
    MonthlyRate := 8000.0
    YearsAtCompany := 10
    YearsInCurrentRole := 5
    YearsSinceLastPromotion := 2
    TotalWorkingYears := 15
    YearsWithCurrManager := 3
    NumCompaniesWorked := 2
    PerformanceRating := 4
    PercentSalaryHike := 15.0
    TrainingTimesLastYear := 3
    OverTime := "No"
    BusinessTravel := "Travel_Rarely"
    DistanceFromHome := 5
    WorkLifeBalance := 4
    EnvironmentSatisfaction := 4
    RelationshipSatisfaction := 4
    Education := 4
    EducationField := "Life Sciences"
    StockOptionLevel := 2 }

/-- The response body of `/sample-data`: a dict with the two fixed keys
`high_risk_employee` and `low_risk_employee` (`main.py` lines 130-193). -/
structure SampleData where
  high_risk_employee : EmployeeInput
  low_risk_employee : EmployeeInput

/-- `get_sample_data` of `main.py` lines 127-194: builds the two literal
records and returns them; it reads no state (the `ServerState` argument is
the ambient process state available to every handler, unused here). -/
def get_sample_data (_s : ServerState) : SampleData :=
  { high_risk_employee := high_risk_employee
    low_risk_employee := low_risk_employee }

/-- `main.py` lines 221-228, the inner `try` of `predict_attrition`: take
entry 1 of the probability row when `len(pred_proba) > 1`, entry 0 otherwise;
any exception inside the block — `predict_proba` raising (e.g. the method is
absent) or the `IndexError` of `pred_proba[0]` on an empty row — is caught
and yields the default `0.5`. -/
def extractProbability : Except String (List ℚ) → ℚ
  | .error _ => 0.5
  | .ok [] => 0.5
  | .ok [p0] => p0
  | .ok (_ :: p1 :: _) => p1

/-- `main.py` lines 236-241 of `predict_attrition`: the confidence tier. -/
def confidenceOf (probability : ℚ) : String :=
  if probability ≥ 0.8 then "High"
  else if probability ≥ 0.6 then "Medium"
  else "Low"

/-- Which predictor methods a handler invoked (instrumentation used to state
that prediction is never attempted when the model is not loaded). -/
inductive CallEvent where
  | predictCall
  | predictProbaCall
deriving DecidableEq

/-- `predict_attrition` of `main.py` lines 199-250, instrumented with the
list of predictor invocations it performs.  With the model not loaded it
raises 503 before touching the predictor (lines 204-205).  Otherwise
`pipeline.predict` runs inside the outer `try`: a raised exception becomes
the 500 error of lines 249-250.  The probability then comes from the inner
`try` (`extractProbability`); the label is `"Yes"` iff the predicted class
equals 1 (lines 231-232), and the confidence tier is `confidenceOf`
(lines 236-241). -/
def predict_attrition (model_loaded : Bool) (pipe : Pipeline)
    (data : EmployeeInput) : Except HError PredictionResponse × List CallEvent :=
  if model_loaded = false then
    (.error { status_code := 503
              detail := "Model not loaded. Please check /health endpoint." }, [])
  else
    match pipe.predict data with
    | .error e =>
        (.error { status_code := 500, detail := "Prediction error: " ++ e },
         [.predictCall])
    | .ok pred =>
        let probability := extractProbability (pipe.predict_proba data)
        let label := if pred = 1 then "Yes" else "No"
        (.ok { prediction := label
               probability := probability
               confidence := confidenceOf probability },
         [.predictCall, .predictProbaCall])

/-- The success body of `/test-prediction` (`main.py` lines 308-316). -/
structure TestOkBody where
  test_data : EmployeeInput
  prediction : Int
  probabilities : List ℚ
  pipeline_type : String
  has_predict_proba : Bool

/-- The body returned by `/test-prediction` with HTTP status 200: either the
success record of lines 308-316 or the `{"error": ...}` record of line 319
produced by the `except` clause. -/
inductive TestBody where
  | okBody : TestOkBody → TestBody
  | errBody : String → TestBody

/-- `test_prediction` of `main.py` lines 255-319.  With the model not loaded
it raises 503 (lines 258-259).  Otherwise it runs the `high_risk_employee`
literal (re-embedded verbatim at lines 263-293) through `predict` and
`predict_proba`; any exception is caught by the `except` of lines 318-319 and
turned into a normal 200 response `{"error": str(e), ...}`. -/
def test_prediction (model_loaded : Bool) (pipe : Pipeline) :
    Except HError TestBody :=
  if model_loaded = false then
    .error { status_code := 503, detail := "Model not loaded" }
  else
    match pipe.predict high_risk_employee with
    | .error e => .ok (.errBody e)
    | .ok pred =>
        match pipe.predict_proba high_risk_employee with
        | .error e => .ok (.errBody e)
        | .ok proba =>
            .ok (.okBody { test_data := high_risk_employee
                           prediction := pred
                           probabilities := proba
                           pipeline_type := pipe.pipeline_type
                           has_predict_proba := pipe.has_predict_proba })

/-- A request to one of the five routes of `main.py`. -/
inductive Request where
  | healthReq
  | sampleDataReq
  | predictReq (data : EmployeeInput)
  | testPredictionReq
  | rootReq

/-- A response from one of the five routes. -/
inductive Response where
  | healthR : HealthResponse → Response
  | sampleR : SampleData → Response
  | predictionR : Except HError PredictionResponse → Response
  | testR : Except HError TestBody → Response
  | rootR : Bool → Response

/-- The message of the `AttributeError` the Python interpreter raises when
the global `pipeline` is still `None` and `pipeline.predict(...)` is
evaluated (`main.py` line 217 or 301 with the global of line 94).  The
interpreter renders it as this exact text (the quotes are written with
escapes).  The state producing it is unreachable from `startup`, which sets
`model_loaded` only after assigning the global. -/
def noneTypeAttrMsg : String :=
  "\x27NoneType\x27 object has no attribute \x27predict\x27"

/-- Dispatch one request against the process state.  No handler of `main.py`
assigns any global (only `load_model`, run once before serving, does), so
every branch returns the state unchanged.  For `/predict` and
`/test-prediction` the handlers (`main.py` lines 204-205 and 258-259) check
`model_loaded` before touching the global `pipeline`; when the flag is
somehow true while `pipeline` is still `None` — a state `startup` never
produces — the `pipeline.predict` call raises the `AttributeError`
`noneTypeAttrMsg` inside each `try`, surfaced by the outer `except` of
lines 249-250 as the 500 error and by lines 318-319 as the 200 error-key
body. -/
def handle (s : ServerState) (req : Request) : Response × ServerState :=
  match req with
  | .healthReq => (.healthR (health_check s), s)
  | .sampleDataReq => (.sampleR (get_sample_data s), s)
  | .predictReq data =>
      match s.pipeline with
      | some p => (.predictionR (predict_attrition s.model_loaded p data).1, s)
      | none =>
          if s.model_loaded = false then
            (.predictionR (.error
              { status_code := 503
                detail := "Model not loaded. Please check /health endpoint." }), s)
          else
            (.predictionR (.error
              { status_code := 500
                detail := "Prediction error: " ++ noneTypeAttrMsg }), s)
  | .testPredictionReq =>
      match s.pipeline with
      | some p => (.testR (test_prediction s.model_loaded p), s)
      | none =>
          if s.model_loaded = false then
            (.testR (.error { status_code := 503, detail := "Model not loaded" }), s)
          else
            (.testR (.ok (.errBody noneTypeAttrMsg)), s)
  | .rootReq => (.rootR s.model_loaded, s)

/-- Serve a sequence of requests, threading the process state. -/
def runRequests (s : ServerState) (reqs : List Request) : ServerState :=
  reqs.foldl (fun st req => (handle st req).2) s

/-!
Concrete predictor artifacts used to instantiate the theorems below on
closed inputs.
-/

/-- A predictor that always answers class 1 with probability row
`[0.2, 0.8]` (the positive-class probability sits exactly on the
High-confidence boundary). -/
def constPipe : Pipeline :=
  { predict := fun _ => .ok 1
    predict_proba := fun _ => .ok [0.2, 0.8]
    pipeline_type := "sklearn.pipeline.Pipeline"
    has_predict_proba := true }

/-- The response `/predict` produces with `constPipe`. -/
def constResp : PredictionResponse :=
  { prediction := "Yes", probability := 0.8, confidence := "High" }

/-- A predictor without a probability estimate: `predict_proba` raises. -/
def noProbaPipe : Pipeline :=
  { predict := fun _ => .ok 0
    predict_proba := fun _ => .error "predict_proba is not available"
    pipeline_type := "xgboost.XGBClassifier"
    has_predict_proba := false }

/-- A predictor whose `predict` raises. -/
def failPipe : Pipeline :=
  { predict := fun _ => .error "feature mismatch"
    predict_proba := fun _ => .error "feature mismatch"
    pipeline_type := "sklearn.pipeline.Pipeline"
    has_predict_proba := true }

/-- A predictor whose probability row has a single entry. -/
def shortProbaPipe : Pipeline :=
  { predict := fun _ => .ok 1
    predict_proba := fun _ => .ok [0.3]
    pipeline_type := "sklearn.pipeline.Pipeline"
    has_predict_proba := true }

/-!
Helper lemmas about the handlers.
-/

lemma predict_attrition_of_predict_ok (pipe : Pipeline) (data : EmployeeInput)
    (pred : Int) (h : pipe.predict data = .ok pred) :
    predict_attrition true pipe data =
      (.ok { prediction := if pred = 1 then "Yes" else "No"
             probability := extractProbability (pipe.predict_proba data)
             confidence := confidenceOf (extractProbability (pipe.predict_proba data)) },
       [.predictCall, .predictProbaCall]) := by
  simp [predict_attrition, h]

lemma predict_attrition_of_predict_err (pipe : Pipeline) (data : EmployeeInput)
    (msg : String) (h : pipe.predict data = .error msg) :
    predict_attrition true pipe data =
      (.error { status_code := 500, detail := "Prediction error: " ++ msg },
       [.predictCall]) := by
  simp [predict_attrition, h]

lemma predict_attrition_ok_inv (ml : Bool) (pipe : Pipeline) (data : EmployeeInput)
    (r : PredictionResponse) (h : (predict_attrition ml pipe data).1 = .ok r) :
    ml = true ∧ ∃ pred, pipe.predict data = .ok pred ∧
      r = { prediction := if pred = 1 then "Yes" else "No"
            probability := extractProbability (pipe.predict_proba data)
            confidence := confidenceOf (extractProbability (pipe.predict_proba data)) } := by
  cases ml with
  | false => simp [predict_attrition] at h
  | true =>
      refine ⟨rfl, ?_⟩
      cases hp : pipe.predict data with
      | error e => rw [predict_attrition_of_predict_err pipe data e hp] at h; simp at h
      | ok pred =>
          rw [predict_attrition_of_predict_ok pipe data pred hp] at h
          simp at h
          exact ⟨pred, rfl, h.symm⟩

lemma confidenceOf_of_high (p : ℚ) (h : 0.8 ≤ p) : confidenceOf p = "High" := by
  simp [confidenceOf, h]

lemma confidenceOf_of_medium (p : ℚ) (h1 : 0.6 ≤ p) (h2 : p < 0.8) :
    confidenceOf p = "Medium" := by
  rw [confidenceOf, if_neg (by exact not_le.mpr h2), if_pos (by exact h1)]

lemma confidenceOf_of_low (p : ℚ) (h : p < 0.6) : confidenceOf p = "Low" := by
  rw [confidenceOf, if_neg (by exact not_le.mpr (by linarith)),
    if_neg (by exact not_le.mpr h)]

lemma constPipe_eval :
    (predict_attrition true constPipe high_risk_employee).1 = .ok constResp := by
  rw [predict_attrition_of_predict_ok constPipe high_risk_employee 1 rfl]
  rw [show extractProbability (constPipe.predict_proba high_risk_employee) = 0.8 from rfl]
  rw [confidenceOf_of_high 0.8 (by norm_num)]
  rfl

/-!
The claims.
-/

/-- C1: for every probability produced during a `/predict` call, the
confidence field of the returned response is `"High"` when the probability is
at least `0.8`, `"Medium"` when it is at least `0.6` and below `0.8`, and
`"Low"` when it is below `0.6`; the boundary values `0.8` and `0.6` fall in
the `"High"` and `"Medium"` tiers respectively. -/
theorem C1_confidence_tiers (ml : Bool) (pipe : Pipeline) (data : EmployeeInput)
    (r : PredictionResponse) (h : (predict_attrition ml pipe data).1 = .ok r) :
    (0.8 ≤ r.probability → r.confidence = "High") ∧
    (0.6 ≤ r.probability ∧ r.probability < 0.8 → r.confidence = "Medium") ∧
    (r.probability < 0.6 → r.confidence = "Low") := by
  obtain ⟨-, pred, -, rfl⟩ := predict_attrition_ok_inv ml pipe data r h
  dsimp only
  exact ⟨fun hh => confidenceOf_of_high _ hh,
         fun hm => confidenceOf_of_medium _ hm.1 hm.2,
         fun hl => confidenceOf_of_low _ hl⟩

/-- Witness for C1: a call through `constPipe` yields probability exactly
`0.8` and the theorem places it in the `"High"` tier. -/
theorem C1_confidence_tiers_witness :
    (predict_attrition true constPipe high_risk_employee).1 = .ok constResp ∧
    ((0.8 ≤ constResp.probability → constResp.confidence = "High") ∧
     (0.6 ≤ constResp.probability ∧ constResp.probability < 0.8 →
        constResp.confidence = "Medium") ∧
     (constResp.probability < 0.6 → constResp.confidence = "Low")) :=
  ⟨constPipe_eval,
   C1_confidence_tiers true constPipe high_risk_employee constResp constPipe_eval⟩

/-- Counterexample to C2: with a predictor whose probability row is the
one-entry list `[0.3]`, the row is available, yet the reported probability is
`0.3` — the entry at index 0, not an index-1 entry (the row has length 1) and
not the default `0.5`. -/
theorem C2_probability_selection_counterexample :
    shortProbaPipe.predict_proba high_risk_employee = .ok [0.3] ∧
    ([(0.3 : ℚ)]).length = 1 ∧
    (predict_attrition true shortProbaPipe high_risk_employee).1 =
      .ok { prediction := "Yes", probability := 0.3, confidence := "Low" } ∧
    (0.3 : ℚ) ≠ 0.5 := by
  refine ⟨rfl, rfl, ?_, by norm_num⟩
  rw [predict_attrition_of_predict_ok shortProbaPipe high_risk_employee 1 rfl]
  rw [show extractProbability (shortProbaPipe.predict_proba high_risk_employee) = 0.3 from rfl]
  rw [confidenceOf_of_low 0.3 (by norm_num)]
  rfl

/-- C2 as amended: during a successful `/predict` call the reported
probability is the entry at index 1 of the probability row of the predictor when
that row has more than one entry, the entry at index 0 when it has exactly
one entry, and the fixed default `0.5` when `predict_proba` raises (in
particular when the predictor lacks it) or returns an empty row. -/
theorem C2_probability_selection (pipe : Pipeline) (data : EmployeeInput)
    (r : PredictionResponse)
    (h : (predict_attrition true pipe data).1 = .ok r) :
    (∀ msg, pipe.predict_proba data = .error msg → r.probability = 0.5) ∧
    (pipe.predict_proba data = .ok [] → r.probability = 0.5) ∧
    (∀ p0, pipe.predict_proba data = .ok [p0] → r.probability = p0) ∧
    (∀ p0 p1 rest, pipe.predict_proba data = .ok (p0 :: p1 :: rest) →
        r.probability = p1) := by
  obtain ⟨-, pred, -, rfl⟩ := predict_attrition_ok_inv true pipe data r h
  dsimp only
  refine ⟨?_, ?_, ?_, ?_⟩
  · intro msg hm; rw [hm]; rfl
  · intro hm; rw [hm]; rfl
  · intro p0 hm; rw [hm]; rfl
  · intro p0 p1 rest hm; rw [hm]; rfl

/-- Witness for C2 (amended): a predictor without `predict_proba` yields the
default probability `0.5`. -/
theorem C2_probability_selection_witness :
    (predict_attrition true noProbaPipe high_risk_employee).1 =
      .ok { prediction := "No", probability := 0.5, confidence := "Low" } ∧
    ({ prediction := "No", probability := 0.5, confidence := "Low"} :
        PredictionResponse).probability = 0.5 := by
  have heval : (predict_attrition true noProbaPipe high_risk_employee).1 =
      .ok { prediction := "No", probability := 0.5, confidence := "Low" } := by
    rw [predict_attrition_of_predict_ok noProbaPipe high_risk_employee 0 rfl]
    rw [show extractProbability (noProbaPipe.predict_proba high_risk_employee) = 0.5 from rfl]
    rw [confidenceOf_of_low 0.5 (by norm_num)]
    rfl
  exact ⟨heval,
    (C2_probability_selection noProbaPipe high_risk_employee _ heval).1
      "predict_proba is not available" rfl⟩

/-- C3: for every successful `/predict` call the returned label is `"Yes"`
iff the predicted class equals 1, and `"No"` for every other class. -/
theorem C3_label_iff_class_one (pipe : Pipeline) (data : EmployeeInput)
    (pred : Int) (r : PredictionResponse)
    (hpred : pipe.predict data = .ok pred)
    (h : (predict_attrition true pipe data).1 = .ok r) :
    (r.prediction = "Yes" ↔ pred = 1) ∧ (pred ≠ 1 → r.prediction = "No") := by
  obtain ⟨-, pred2, hp2, rfl⟩ := predict_attrition_ok_inv true pipe data r h
  rw [hpred] at hp2
  injection hp2 with hp3
  subst hp3
  dsimp only
  constructor
  · constructor
    · intro hy
      by_contra hne
      rw [if_neg hne] at hy
      exact absurd hy (by decide)
    · intro h1; rw [if_pos h1]
  · intro hne; rw [if_neg hne]

/-- Witness for C3: `constPipe` predicts class 1 and the label is `"Yes"`. -/
theorem C3_label_iff_class_one_witness :
    (predict_attrition true constPipe high_risk_employee).1 = .ok constResp ∧
    (constResp.prediction = "Yes" ↔ (1 : Int) = 1) :=
  ⟨constPipe_eval,
   (C3_label_iff_class_one constPipe high_risk_employee 1 constResp rfl
      constPipe_eval).1⟩

/-- C4: with the model-loaded flag false, every `/predict` call returns the
503 error and performs no predictor invocation at all (the instrumented call
trace is empty). -/
theorem C4_unloaded_returns_503 (pipe : Pipeline) (data : EmployeeInput) :
    predict_attrition false pipe data =
      (.error { status_code := 503
                detail := "Model not loaded. Please check /health endpoint." },
       ([] : List CallEvent)) := rfl

/-- C5: with the model loaded, an exception raised by the predictor surfaces
as a 500 error whose detail carries the underlying message, and no success
response is returned. -/
theorem C5_prediction_error_500 (pipe : Pipeline) (data : EmployeeInput)
    (msg : String) (hpred : pipe.predict data = .error msg) :
    (predict_attrition true pipe data).1 =
      .error { status_code := 500, detail := "Prediction error: " ++ msg } ∧
    ∀ r, (predict_attrition true pipe data).1 ≠ .ok r := by
  have he := predict_attrition_of_predict_err pipe data msg hpred
  refine ⟨by rw [he], ?_⟩
  intro r hr
  rw [he] at hr
  simp at hr

/-- Witness for C5: `failPipe` raises `"feature mismatch"` and the call
returns the 500 error carrying that message. -/
theorem C5_prediction_error_500_witness :
    failPipe.predict high_risk_employee = .error "feature mismatch" ∧
    (predict_attrition true failPipe high_risk_employee).1 =
      .error { status_code := 500, detail := "Prediction error: feature mismatch" } :=
  ⟨rfl,
   ((C5_prediction_error_500 failPipe high_risk_employee "feature mismatch"
      rfl).1).trans rfl⟩

/-- C6: for every accepted input, the probability field of a successful
`/predict` response lies in `[0,1]`, given that the external predictor
honours its contract of returning probabilities (every entry of any
probability row it produces lies in `[0,1]`); the fallback default `0.5`
also lies in `[0,1]`. -/
theorem C6_probability_unit_interval (pipe : Pipeline) (data : EmployeeInput)
    (r : PredictionResponse)
    (hproba : ∀ v, pipe.predict_proba data = .ok v → ∀ p ∈ v, 0 ≤ p ∧ p ≤ 1)
    (h : (predict_attrition true pipe data).1 = .ok r) :
    0 ≤ r.probability ∧ r.probability ≤ 1 := by
  obtain ⟨-, pred, -, rfl⟩ := predict_attrition_ok_inv true pipe data r h
  dsimp only
  cases hv : pipe.predict_proba data with
  | error e => norm_num [extractProbability]
  | ok v =>
      cases v with
      | nil => norm_num [extractProbability]
      | cons p0 tl =>
          cases tl with
          | nil => exact hproba _ hv p0 (by simp)
          | cons p1 tl2 => exact hproba _ hv p1 (by simp)

/-- Witness for C6: the probability `0.8` returned through `constPipe` lies
in the unit interval. -/
theorem C6_probability_unit_interval_witness :
    (predict_attrition true constPipe high_risk_employee).1 = .ok constResp ∧
    (0 ≤ constResp.probability ∧ constResp.probability ≤ 1) :=
  ⟨constPipe_eval,
   C6_probability_unit_interval constPipe high_risk_employee constResp
     (by intro v hv p hp
         injection hv with hv2
         subst hv2
         simp at hp
         rcases hp with rfl | rfl <;> norm_num)
     constPipe_eval⟩

/-- C7: `/sample-data` is a constant endpoint — its value does not depend on
the process state, and it always returns exactly the two literal records
`high_risk_employee` and `low_risk_employee` embedded in the source. -/
theorem C7_sample_data_constant (s t : ServerState) :
    get_sample_data s = get_sample_data t ∧
    (get_sample_data s).high_risk_employee = high_risk_employee ∧
    (get_sample_data s).low_risk_employee = low_risk_employee :=
  ⟨rfl, rfl, rfl⟩

lemma handle_snd (s : ServerState) (req : Request) : (handle s req).2 = s := by
  cases req with
  | healthReq => rfl
  | sampleDataReq => rfl
  | predictReq data =>
      cases hp : s.pipeline <;> cases hm : s.model_loaded <;> simp [handle, hp, hm]
  | testPredictionReq =>
      cases hp : s.pipeline <;> cases hm : s.model_loaded <;> simp [handle, hp, hm]
  | rootReq => rfl

lemma runRequests_id (s : ServerState) (reqs : List Request) :
    runRequests s reqs = s := by
  induction reqs with
  | nil => rfl
  | cons r rs ih =>
      have hstep : runRequests s (r :: rs) = runRequests ((handle s r).2) rs := rfl
      rw [hstep, handle_snd]
      exact ih

/-- C8: the model-loaded flag is fixed at startup — true iff the artifact
file exists and deserializes — no request handler changes the process state,
and after serving any sequence of requests `/health` reports
`model_loaded = false` exactly when the startup load failed. -/
theorem C8_model_loaded_invariant (env : Env) (reqs : List Request) :
    (startup env).model_loaded = (env.fileExists && env.deserializeOk) ∧
    (∀ s req, (handle s req).2 = s) ∧
    runRequests (startup env) reqs = startup env ∧
    ((health_check (runRequests (startup env) reqs)).model_loaded = false ↔
      ¬ (env.fileExists = true ∧ env.deserializeOk = true)) := by
  have h1 : (startup env).model_loaded = load_model env := by
    cases h : load_model env <;> simp [startup, h]
  refine ⟨h1, handle_snd, runRequests_id _ _, ?_⟩
  rw [runRequests_id]
  cases hf : env.fileExists <;> cases hd : env.deserializeOk <;>
    simp [health_check, startup, load_model, hf, hd]

/-- C9: when the model is loaded, `predict` succeeds but `predict_proba`
raises, the call still succeeds, with probability exactly `0.5` and
confidence `"Low"`; the probability error never reaches the caller. -/
theorem C9_proba_failure_defaults (pipe : Pipeline) (data : EmployeeInput)
    (pred : Int) (msg : String)
    (hpred : pipe.predict data = .ok pred)
    (hproba : pipe.predict_proba data = .error msg) :
    (predict_attrition true pipe data).1 =
      .ok { prediction := if pred = 1 then "Yes" else "No"
            probability := 0.5
            confidence := "Low" } := by
  rw [predict_attrition_of_predict_ok pipe data pred hpred]
  rw [hproba]
  rw [show extractProbability (Except.error msg) = 0.5 from rfl]
  rw [confidenceOf_of_low 0.5 (by norm_num)]

/-- Witness for C9: `noProbaPipe` has no probability estimate, yet the call
succeeds with probability `0.5` and confidence `"Low"`. -/
theorem C9_proba_failure_defaults_witness :
    noProbaPipe.predict high_risk_employee = .ok 0 ∧
    noProbaPipe.predict_proba high_risk_employee =
      .error "predict_proba is not available" ∧
    (predict_attrition true noProbaPipe high_risk_employee).1 =
      .ok { prediction := "No", probability := 0.5, confidence := "Low" } :=
  ⟨rfl, rfl,
   (C9_proba_failure_defaults noProbaPipe high_risk_employee 0
      "predict_proba is not available" rfl rfl).trans rfl⟩

/-- C10: for `/test-prediction`, the model-not-loaded case is the only HTTP
error (503); with the model loaded, an exception raised by `predict` or
`predict_proba` yields a normal 200 response whose body carries the message
under the error key, and no HTTP error is ever produced. -/
theorem C10_test_prediction_no_http_error (ml : Bool) (pipe : Pipeline) :
    (ml = false → test_prediction ml pipe =
      .error { status_code := 503, detail := "Model not loaded" }) ∧
    (ml = true → ∀ e, test_prediction ml pipe ≠ .error e) ∧
    (ml = true → ∀ msg, pipe.predict high_risk_employee = .error msg →
      test_prediction ml pipe = .ok (.errBody msg)) ∧
    (ml = true → ∀ pred msg, pipe.predict high_risk_employee = .ok pred →
      pipe.predict_proba high_risk_employee = .error msg →
      test_prediction ml pipe = .ok (.errBody msg)) := by
  refine ⟨?_, ?_, ?_, ?_⟩
  · intro h; subst h; rfl
  · intro h e hcontra
    subst h
    cases hp : pipe.predict high_risk_employee with
    | error m => simp [test_prediction, hp] at hcontra
    | ok pred =>
        cases hq : pipe.predict_proba high_risk_employee with
        | error m => simp [test_prediction, hp, hq] at hcontra
        | ok v => simp [test_prediction, hp, hq] at hcontra
  · intro h msg hm
    subst h
    simp [test_prediction, hm]
  · intro h pred msg hp hq
    subst h
    simp [test_prediction, hp, hq]

/-- Witness for C10: with the model unloaded the endpoint raises 503; with
it loaded and `failPipe` raising, the endpoint returns the 200 error body. -/
theorem C10_test_prediction_no_http_error_witness :
    test_prediction false failPipe =
      .error { status_code := 503, detail := "Model not loaded" } ∧
    test_prediction true failPipe = .ok (.errBody "feature mismatch") :=
  ⟨(C10_test_prediction_no_http_error false failPipe).1 rfl,
   (C10_test_prediction_no_http_error true failPipe).2.2.1 rfl
     "feature mismatch" rfl⟩
